import Mathlib

/-!
Verification of the GridZen microgrid backend (`src/backend`) against its
natural-language specification.

Shallow embedding conventions:
* Python floats are modelled as exact rationals (`ℚ`).
* `round(x, k)` in Python is banker's rounding (round half to even); it is
  embedded as `roundHalfEven` on the scaled rational.
* `optimize_power_flow` reads two ambient inputs inside its body — the local
  wall clock (to derive the peak-pricing-hour flag `14 <= hour <= 18`) and the
  environment variable `GRID_MAX_EXPORT_KW` (export ceiling, default 50.0).
  The embedding makes both explicit parameters (`isPeakHour`, `gridMaxExport`)
  so that the dependence on them can be stated and examined.
* Strategy labels, Python strings in the source (including the dynamically
  formatted curtailment tag), are embedded as an inductive type whose
  curtailment constructor carries the rounded curtailed-kW payload.
-/

namespace GridZen

section
/- Batteries marks the arithmetic on `ℚ` irreducible; concrete evaluation by
`decide` needs it unfolded. -/
attribute [local semireducible] Rat.mul Rat.inv Rat.add Rat.sub Rat.ofScientific

/-- Round half to even (Python `round` tie-breaking) to the nearest integer. -/
def roundHalfEven (x : ℚ) : ℤ :=
  let f := x.floor
  let r := x - f
  if r < 1/2 then f
  else if 1/2 < r then f + 1
  else if f % 2 = 0 then f else f + 1

/-- `Rat.floor` (the computable floor used by `roundHalfEven`) agrees with the
floor of the `FloorRing` instance. -/
theorem ratFloor_eq_intFloor (x : ℚ) : (x.floor : ℤ) = ⌊x⌋ := by
  rw [Rat.floor_def' x, Rat.floor_def]

/-- Python `round(x, 1)`. -/
def round1 (x : ℚ) : ℚ := (roundHalfEven (x * 10) : ℚ) / 10

/-- Python `round(x, 2)`. -/
def round2 (x : ℚ) : ℚ := (roundHalfEven (x * 100) : ℚ) / 100

/-- Python `round(x, 3)`. -/
def round3 (x : ℚ) : ℚ := (roundHalfEven (x * 1000) : ℚ) / 1000

/-- Operating mode of the optimizer (`mode` string argument in the source;
any string other than the two manual ones falls through to the AUTO logic). -/
inductive Mode where
  | AUTO
  | MANUAL_CHARGE
  | MANUAL_DISCHARGE
deriving DecidableEq

/-- Strategy labels returned by `optimize_power_flow`.  The source builds the
curtailment label by string formatting (`f"CURTAILING_GEN_{round(kw,1)}KW"`);
it is embedded as a constructor carrying the rounded kW payload. -/
inductive Strategy where
  | NORMAL_BALANCING
  | DELAYED_CHARGE_EXPORTING
  | GRID_IMPORT_SAVE_BATTERY
  | PEAK_GRID_IMPORT_WARNING
  | MANUAL_CHARGE
  | MANUAL_DISCHARGE
  | CURTAILING_GEN (kw : ℚ)
deriving DecidableEq

/-- The dict returned by `optimize_power_flow`. -/
structure DispatchResult where
  battery_power_kw : ℚ
  grid_import_kw : ℚ
  grid_export_kw : ℚ
  strategy : Strategy
deriving DecidableEq

/-- The tick duration `5 / 3600` hours appearing throughout the source. -/
def tickHours : ℚ := 5 / 3600

/-- `optimization.py`, lines 74-81: the charge power chosen in the AUTO
surplus branch (0 in the delayed-charge exception, else the min of surplus,
rated power and SOC headroom expressed as power over one tick). -/
def autoChargeKw (surplus soc cap maxpw forecast : ℚ) (isPeakHour : Bool) : ℚ :=
  if forecast > 15 ∧ soc > 70 ∧ isPeakHour = true then 0
  else min (min surplus maxpw) ((100 - soc) / 100 * cap / tickHours)

/-- `optimization.py`, lines 83-85: the battery power and the pre-cap export
in the AUTO surplus branch. -/
def autoPreCapExport (surplus soc cap maxpw forecast : ℚ) (isPeakHour : Bool) : ℚ :=
  round2 (max 0 (surplus - round2 (max 0 (autoChargeKw surplus soc cap maxpw forecast isPeakHour))))

/-- `optimization.py`, `optimize_power_flow`.  Arguments follow the source
signature; the two ambient reads of the body (wall-clock peak-hour flag and
the `GRID_MAX_EXPORT_KW` environment value) are passed explicitly. -/
def optimize_power_flow (current_solar_kw current_wind_kw current_load_kw
    battery_soc_pct battery_cap_kwh battery_max_pw_kw
    forecast_surplus_kwh_3h : ℚ) (mode : Mode) (manual_override_kw : ℚ)
    (isPeakHour : Bool) (gridMaxExport : ℚ) : DispatchResult :=
  let total_gen := current_solar_kw + current_wind_kw
  let surplus_kw := total_gen - current_load_kw
  match mode with
  | .MANUAL_CHARGE =>
    let charge_rate := min battery_max_pw_kw
      (if manual_override_kw > 0 then manual_override_kw else battery_max_pw_kw)
    let charge_limit := (100 - battery_soc_pct) / 100 * battery_cap_kwh / tickHours
    let actual_charge := min charge_rate charge_limit
    let grid_import := max 0 (actual_charge - surplus_kw)
    let grid_export := max 0 (surplus_kw - actual_charge)
    { battery_power_kw := round2 actual_charge
      grid_import_kw := round2 grid_import
      grid_export_kw := round2 grid_export
      strategy := .MANUAL_CHARGE }
  | .MANUAL_DISCHARGE =>
    let discharge_rate := min battery_max_pw_kw
      (if manual_override_kw > 0 then manual_override_kw else battery_max_pw_kw)
    let actual_discharge0 :=
      min discharge_rate ((battery_soc_pct - 5) * battery_cap_kwh / 100 / tickHours)
    let actual_discharge := max 0 actual_discharge0
    let total_available := surplus_kw + actual_discharge
    { battery_power_kw := -(round2 actual_discharge)
      grid_import_kw := round2 (max 0 (-total_available))
      grid_export_kw := round2 (max 0 total_available)
      strategy := .MANUAL_DISCHARGE }
  | .AUTO =>
    if surplus_kw > 0 then
      let charge_kw := autoChargeKw surplus_kw battery_soc_pct battery_cap_kwh
        battery_max_pw_kw forecast_surplus_kwh_3h isPeakHour
      let strategy1 : Strategy :=
        if forecast_surplus_kwh_3h > 15 ∧ battery_soc_pct > 70 ∧ isPeakHour = true then
          .DELAYED_CHARGE_EXPORTING
        else .NORMAL_BALANCING
      let battery_pw_kw := round2 (max 0 charge_kw)
      let remaining_surplus := surplus_kw - battery_pw_kw
      let grid_export_kw := round2 (max 0 remaining_surplus)
      if grid_export_kw > gridMaxExport then
        let curtailed_kw := grid_export_kw - gridMaxExport
        { battery_power_kw := battery_pw_kw
          grid_import_kw := 0
          grid_export_kw := gridMaxExport
          strategy := .CURTAILING_GEN (round1 curtailed_kw) }
      else
        { battery_power_kw := battery_pw_kw
          grid_import_kw := 0
          grid_export_kw := grid_export_kw
          strategy := strategy1 }
    else
      let deficit_kw := |surplus_kw|
      let saveBattery :=
        forecast_surplus_kwh_3h < -10 ∧ isPeakHour = false ∧ battery_soc_pct < 40
      let discharge_kw0 :=
        if saveBattery then 0
        else min (min deficit_kw battery_max_pw_kw)
          ((battery_soc_pct - 5) / 100 * battery_cap_kwh / tickHours)
      let discharge_kw := max 0 discharge_kw0
      let remaining_deficit := deficit_kw - discharge_kw
      let strategy1 : Strategy :=
        if saveBattery then .GRID_IMPORT_SAVE_BATTERY else .NORMAL_BALANCING
      let strategy2 : Strategy :=
        if isPeakHour = true ∧ remaining_deficit > 0 then .PEAK_GRID_IMPORT_WARNING
        else strategy1
      { battery_power_kw := -(round2 discharge_kw)
        grid_import_kw := round2 (max 0 remaining_deficit)
        grid_export_kw := 0
        strategy := strategy2 }

/-! ## `ingestion.py` — payload normalization (`process_sensor_payload`)

A raw payload is a dict; `raw.get(key, default)` is embedded as `Option`
fields with `getD`.  The timestamp and the optional strategy label are not
numeric and are not touched by any claim, so they are omitted from the
embedded record. -/

/-- The numeric fields of an incoming raw sensor payload (`raw_payload.get`
with per-field defaults in the source). -/
structure RawPayload where
  solar_kw : Option ℚ := none
  wind_kw : Option ℚ := none
  total_generation_kw : Option ℚ := none
  load_kw : Option ℚ := none
  battery_soc_pct : Option ℚ := none
  battery_power_kw : Option ℚ := none
  grid_import_kw : Option ℚ := none
  grid_export_kw : Option ℚ := none
  self_consumption_pct : Option ℚ := none
  co2_saved_kg : Option ℚ := none
  cost_saved_inr : Option ℚ := none
deriving DecidableEq

/-- The normalized reading produced by `process_sensor_payload`. -/
structure ProcessedReading where
  solar_kw : ℚ
  wind_kw : ℚ
  total_generation_kw : ℚ
  load_kw : ℚ
  battery_soc_pct : ℚ
  battery_power_kw : ℚ
  grid_import_kw : ℚ
  grid_export_kw : ℚ
  self_consumption_pct : ℚ
  co2_saved_kg : ℚ
  cost_saved_inr : ℚ
deriving DecidableEq

/-- `ingestion.py`, lines 20-33: clamp/default each numeric field.  Note the
source passes `total_generation_kw` through from the payload (clamped at 0);
it does not recompute it from the solar and wind fields. -/
def process_sensor_payload (p : RawPayload) : ProcessedReading where
  solar_kw := max 0 (p.solar_kw.getD 0)
  wind_kw := max 0 (p.wind_kw.getD 0)
  total_generation_kw := max 0 (p.total_generation_kw.getD 0)
  load_kw := max 0 (p.load_kw.getD 0)
  battery_soc_pct := max 0 (min 100 (p.battery_soc_pct.getD 50))
  battery_power_kw := p.battery_power_kw.getD 0
  grid_import_kw := max 0 (p.grid_import_kw.getD 0)
  grid_export_kw := max 0 (p.grid_export_kw.getD 0)
  self_consumption_pct := max 0 (min 100 (p.self_consumption_pct.getD 0))
  co2_saved_kg := p.co2_saved_kg.getD 0
  cost_saved_inr := p.cost_saved_inr.getD 0

/-- `main.py`, lines 195-197 (`ingest_data` derived metrics): after
normalization and dispatch, the endpoint overwrites `total_generation_kw`
with the sum of the processed solar and wind fields. -/
def ingest_data_derived_total (r : ProcessedReading) : ProcessedReading :=
  { r with total_generation_kw := r.solar_kw + r.wind_kw }

/-! ## State-of-charge updates

Two call sites integrate dispatch power into SOC.  In the source the elapsed
time (`5 / 3600` h) and, on the simulated path, the efficiency (`0.95`) are
call-site constants; the claim quantifies over them, so they are parameters
here — the formula is the source's. -/

/-- `simulator.py`, lines 131-135: SOC update on the simulated feed path —
add `power × elapsed × efficiency / capacity × 100`, clamp to `[5, 95]`,
then round to 2 decimals (`round(max(5.0, min(95.0, soc + delta)), 2)`). -/
def simulator_soc_update (soc power elapsedH eff cap : ℚ) : ℚ :=
  round2 (max 5 (min 95 (soc + power * elapsedH * eff / cap * 100)))

/-- `main.py`, lines 188-192: SOC update on the externally-ingested path —
add `power × elapsed / capacity × 100` (no efficiency factor in this call
site), clamp to `[0, 100]` (`max(0.0, min(100.0, ...))`). -/
def ingest_soc_update (soc power elapsedH cap : ℚ) : ℚ :=
  max 0 (min 100 (soc + power * elapsedH / cap * 100))

/-! ## `engine/ingestion.py` — anomaly detection

`_detect_anomalies` is a pure function of the window snapshot (which, at its
call site, already contains the new reading) and the reading.  The source
compares the sample standard deviation `σ = stdev(values)` against `0.1` and
`|value − mean|` against `3σ` and `6σ`; over non-negative quantities these
comparisons are equivalent to the squared comparisons on the sample variance
`σ²` used here, which keeps the embedding inside exact rational arithmetic
(`σ < 0.1 ↔ σ² < 1/100`, `|v − μ| > kσ ↔ (v − μ)² > k²σ²`). -/

/-- The four monitored fields of `_detect_anomalies`. -/
inductive AField where
  | solar_kw
  | wind_kw
  | load_kw
  | grid_import_kw
deriving DecidableEq, BEq

/-- A sensor reading as seen by the anomaly detector: the four monitored
numeric fields (always present in the system's readings). -/
structure SensorReading where
  solar_kw : ℚ
  wind_kw : ℚ
  load_kw : ℚ
  grid_import_kw : ℚ
deriving DecidableEq

/-- `r[field]` for the four monitored fields. -/
def fieldValue (r : SensorReading) : AField → ℚ
  | .solar_kw => r.solar_kw
  | .wind_kw => r.wind_kw
  | .load_kw => r.load_kw
  | .grid_import_kw => r.grid_import_kw

/-- `statistics.mean`. -/
def listMean (l : List ℚ) : ℚ := l.sum / l.length

/-- The square of `statistics.stdev` (sample variance, denominator `n − 1`);
0 when fewer than two samples, mirroring the source's
`stdev(values) if len(values) > 1 else 0.0`. -/
def sampleVariance (l : List ℚ) : ℚ :=
  if l.length ≤ 1 then 0
  else ((l.map fun x => (x - listMean l) ^ 2).sum) / ((l.length : ℚ) - 1)

/-- `ANOMALY_SIGMA` (3.0). -/
def ANOMALY_SIGMA : ℚ := 3

/-- An `AnomalyFlag`: field, observed value, rolling mean and variance (σ²),
and the severity computed by the constructor
(`HIGH if abs(value - mean) > ANOMALY_SIGMA * 2 * sigma else MEDIUM`,
embedded as the squared comparison). -/
structure AnomalyFlag where
  field : AField
  value : ℚ
  mean : ℚ
  variance : ℚ
  severityHigh : Bool
deriving DecidableEq

/-- One iteration of the field loop of `_detect_anomalies`: `none` when the
field is skipped (sparse guard `len < 10`, flatness floor `σ < 0.1`, or
deviation within `3σ`), `some flag` when flagged. -/
def evalAnomalyField (window : List SensorReading) (reading : SensorReading)
    (f : AField) : Option AnomalyFlag :=
  let values := window.map (fun r => fieldValue r f)
  if values.length < 10 then none
  else
    let mu := listMean values
    let var := sampleVariance values
    if var < 1/100 then none
    else
      let val := fieldValue reading f
      if (val - mu) ^ 2 > ANOMALY_SIGMA ^ 2 * var then
        some { field := f, value := val, mean := mu, variance := var,
               severityHigh := decide ((val - mu) ^ 2 > (2 * ANOMALY_SIGMA) ^ 2 * var) }
      else none

/-- `engine/ingestion.py`, `_detect_anomalies` (lines 113-134): no flags
until 30 readings are buffered, then one optional flag per monitored field. -/
def detect_anomalies (window : List SensorReading) (reading : SensorReading) :
    List AnomalyFlag :=
  if window.length < 30 then []
  else [AField.solar_kw, AField.wind_kw, AField.load_kw, AField.grid_import_kw].filterMap
    (evalAnomalyField window reading)

/-! ## `engine/ingestion.py` — rolling window and aggregation pipeline

The pipeline state mirrors `IngestionPipeline.__init__`: the bounded raw
window (`deque(maxlen=window)`), the current aggregation buffer, the bounded
aggregate history (`deque(maxlen=288)`) and the optional bin cutoff.
Timestamps are rationals measured in minutes.  Each reading carries one
representative numeric value: `_flush_aggregate` averages every numeric
field independently and identically, so one field stands for all of them. -/

/-- A reading stamped with its ingest time (`datetime.now` at the top of
`ingest`), in minutes. -/
structure TimedReading where
  ts : ℚ
  val : ℚ
deriving DecidableEq

/-- An aggregate bin: the cutoff timestamp it was flushed with and the
rounded mean of the field. -/
structure AggBin where
  ts : ℚ
  val : ℚ
deriving DecidableEq

/-- `AGGREGATE_MINUTES` (5). -/
def AGGREGATE_MINUTES : ℚ := 5

/-- `deque(maxlen=cap).append`: drop the oldest element when full. -/
def pushBounded (cap : ℕ) (w : List α) (r : α) : List α :=
  if w.length < cap then w ++ [r] else w.drop 1 ++ [r]

/-- State of an `IngestionPipeline` instance. -/
structure PipelineState where
  cap : ℕ
  window : List TimedReading
  aggBuf : List TimedReading
  aggs : List AggBin
  aggCutoff : Option ℚ
deriving DecidableEq

/-- `IngestionPipeline.__init__` (window capacity 720 by default). -/
def initPipeline (cap : ℕ := 720) : PipelineState :=
  { cap := cap, window := [], aggBuf := [], aggs := [], aggCutoff := none }

/-- `_flush_aggregate`: no bin if the buffer is empty, else the rounded mean
of the buffered values stamped with the passed cutoff. -/
def flush_aggregate (binTs : ℚ) (buf : List TimedReading) : Option AggBin :=
  if buf.isEmpty then none
  else some { ts := binTs, val := round3 (listMean (buf.map TimedReading.val)) }

/-- `IngestionPipeline.ingest` (lines 78-101): append to the window and to
the aggregation buffer, initialise the cutoff on first use, and flush the
bin when the reading's arrival time has reached the cutoff.  The reading is
appended to the buffer before the flush check, so a reading arriving at or
past the cutoff is included in the bin being flushed. -/
def pipeline_ingest (s : PipelineState) (r : TimedReading) : PipelineState :=
  let w := pushBounded s.cap s.window r
  let buf := s.aggBuf ++ [r]
  let cut := s.aggCutoff.getD (r.ts + AGGREGATE_MINUTES)
  if cut ≤ r.ts then
    { cap := s.cap
      window := w
      aggBuf := []
      aggs := match flush_aggregate cut buf with
        | none => s.aggs
        | some b => pushBounded 288 s.aggs b
      aggCutoff := some (r.ts + AGGREGATE_MINUTES) }
  else
    { cap := s.cap, window := w, aggBuf := buf, aggs := s.aggs,
      aggCutoff := some cut }

/-- A whole ingest trace. -/
def pipeline_ingestAll (s : PipelineState) (rs : List TimedReading) : PipelineState :=
  rs.foldl pipeline_ingest s

/-- `IngestionPipeline.recent` (lines 138-142): `list(self._window)[-n:]`.
Python's slice `[-0:]` is the whole list, so `n = 0` returns every buffered
reading; for `n > 0` it is the last `min n len` readings in order. -/
def pipeline_recent (n : ℕ) (s : PipelineState) : List TimedReading :=
  let items := s.window
  if n = 0 then items else items.drop (items.length - n)

/-- Spec-side definition for C4 (not from the source): the arithmetic mean
of the readings whose timestamps fall within the bin window
`[binTs − AGGREGATE_MINUTES, binTs)` of the bin flushed at `binTs`. -/
def binWindowMean (rs : List TimedReading) (binTs : ℚ) : ℚ :=
  listMean ((rs.filter fun r =>
    decide (binTs - AGGREGATE_MINUTES ≤ r.ts) && decide (r.ts < binTs)).map
      TimedReading.val)

/-! ## Rounding lemmas -/

/-- `roundHalfEven` returns the floor or the floor plus one, and only moves
up when the argument lies strictly above its floor. -/
theorem roundHalfEven_eq_cases (x : ℚ) :
    roundHalfEven x = ⌊x⌋ ∨ (roundHalfEven x = ⌊x⌋ + 1 ∧ (⌊x⌋ : ℚ) < x) := by
  unfold roundHalfEven
  simp only [ratFloor_eq_intFloor]
  split
  · exact Or.inl rfl
  · next h1 =>
    have hx : (1 : ℚ)/2 ≤ x - ⌊x⌋ := le_of_not_lt h1
    have hlt : (⌊x⌋ : ℚ) < x := by linarith
    split
    · exact Or.inr ⟨rfl, hlt⟩
    · split
      · exact Or.inl rfl
      · exact Or.inr ⟨rfl, hlt⟩

/-- `roundHalfEven` maps a value between two integers to an integer between
them. -/
theorem roundHalfEven_bounds {a b : ℤ} {x : ℚ} (ha : (a : ℚ) ≤ x)
    (hb : x ≤ (b : ℚ)) : a ≤ roundHalfEven x ∧ roundHalfEven x ≤ b := by
  have hfa : a ≤ ⌊x⌋ := Int.le_floor.mpr ha
  have hfb : ⌊x⌋ ≤ b := by
    have h := Int.floor_le_floor hb
    simpa using h
  rcases roundHalfEven_eq_cases x with h | ⟨h, hlt⟩
  · rw [h]; exact ⟨hfa, hfb⟩
  · rw [h]
    refine ⟨by omega, ?_⟩
    have hq : (⌊x⌋ : ℚ) < (b : ℚ) := lt_of_lt_of_le hlt hb
    have hz : ⌊x⌋ < b := by exact_mod_cast hq
    omega

/-- `round2` maps a value between two integers to a value between them. -/
theorem round2_bounds {a b : ℤ} {x : ℚ} (ha : (a : ℚ) ≤ x) (hb : x ≤ (b : ℚ)) :
    (a : ℚ) ≤ round2 x ∧ round2 x ≤ (b : ℚ) := by
  have ha100 : ((100 * a : ℤ) : ℚ) ≤ x * 100 := by push_cast; linarith
  have hb100 : x * 100 ≤ ((100 * b : ℤ) : ℚ) := by push_cast; linarith
  obtain ⟨h1, h2⟩ := roundHalfEven_bounds ha100 hb100
  unfold round2
  constructor
  · rw [le_div_iff₀ (by norm_num : (0 : ℚ) < 100)]
    calc (a : ℚ) * 100 = ((100 * a : ℤ) : ℚ) := by push_cast; ring
    _ ≤ (roundHalfEven (x * 100) : ℚ) := by exact_mod_cast h1
  · rw [div_le_iff₀ (by norm_num : (0 : ℚ) < 100)]
    calc (roundHalfEven (x * 100) : ℚ) ≤ ((100 * b : ℤ) : ℚ) := by exact_mod_cast h2
    _ = (b : ℚ) * 100 := by push_cast; ring

theorem round2_zero : round2 0 = 0 := by decide

/-! ## Claim theorems -/

/-- C1, counterexample: two calls to `optimize_power_flow` with the nine
identical argument values (solar 30, wind 0, load 0, SOC 75 %, capacity
80 kWh, rated power 20 kW, forecast surplus 20 kWh, AUTO, override 0) return
different results when the ambient inputs the function reads internally
differ — here the wall-clock peak-pricing-hour flag (true at 15:00 local,
false at 10:00 local) flips the result from delayed-charge exporting to
normal charging.  The function therefore does have hidden inputs. -/
theorem C1_counterexample :
    optimize_power_flow 30 0 0 75 80 20 20 .AUTO 0 true 50 ≠
      optimize_power_flow 30 0 0 75 80 20 20 .AUTO 0 false 50 := by decide

/-- C1, amended: two calls to `optimize_power_flow` with identical argument
values AND identical ambient inputs (the peak-pricing-hour flag the source
derives from the system clock, and the `GRID_MAX_EXPORT_KW` environment
value) return identical results: beyond those two ambient reads the function
has no hidden state. -/
theorem C1_deterministic_given_ambient
    (solar wind load soc cap maxpw forecast : ℚ) (mode : Mode) (ovr : ℚ)
    (p₁ p₂ : Bool) (g₁ g₂ : ℚ) (hp : p₁ = p₂) (hg : g₁ = g₂) :
    optimize_power_flow solar wind load soc cap maxpw forecast mode ovr p₁ g₁ =
      optimize_power_flow solar wind load soc cap maxpw forecast mode ovr p₂ g₂ := by
  rw [hp, hg]

/-- C1, witness for the amended theorem at a concrete input. -/
theorem C1_deterministic_given_ambient_witness :
    optimize_power_flow 30 0 0 75 80 20 20 .AUTO 0 true 50 =
      optimize_power_flow 30 0 0 75 80 20 20 .AUTO 0 true 50 :=
  C1_deterministic_given_ambient 30 0 0 75 80 20 20 .AUTO 0 true true 50 50 rfl rfl

/-- C2: for every current SOC, battery power, elapsed time, efficiency and
capacity — pathological values included — the SOC value produced by the
simulated-feed update (`simulator.py` lines 131-135) lies in `[5, 95]` and
the SOC value produced by the externally-ingested update (`main.py` lines
188-192) lies in `[0, 100]`: both clamp rather than escape the band. -/
theorem C2_soc_update_within_bounds (soc power elapsedH eff cap : ℚ) :
    (5 ≤ simulator_soc_update soc power elapsedH eff cap ∧
      simulator_soc_update soc power elapsedH eff cap ≤ 95) ∧
    (0 ≤ ingest_soc_update soc power elapsedH cap ∧
      ingest_soc_update soc power elapsedH cap ≤ 100) := by
  constructor
  · unfold simulator_soc_update
    have h5 : (5 : ℚ) ≤ max 5 (min 95 (soc + power * elapsedH * eff / cap * 100)) :=
      le_max_left _ _
    have h95 : max 5 (min 95 (soc + power * elapsedH * eff / cap * 100)) ≤ 95 :=
      max_le (by norm_num) (min_le_left _ _)
    have := round2_bounds (a := 5) (b := 95) (by exact_mod_cast h5) (by exact_mod_cast h95)
    exact_mod_cast this
  · unfold ingest_soc_update
    exact ⟨le_max_left _ _, max_le (by norm_num) (min_le_left _ _)⟩

/-- C3, counterexample: `process_sensor_payload` does not establish
`total_generation_kw = solar_kw + wind_kw`.  For the raw payload with
solar 5, wind 3 and total 100, the normalized reading keeps total 100 ≠ 8:
the normalization clamps the payload's total at 0 but never recomputes it. -/
theorem C3_counterexample :
    (process_sensor_payload
        { solar_kw := some 5, wind_kw := some 3,
          total_generation_kw := some 100 }).total_generation_kw ≠
      (process_sensor_payload
        { solar_kw := some 5, wind_kw := some 3,
          total_generation_kw := some 100 }).solar_kw +
      (process_sensor_payload
        { solar_kw := some 5, wind_kw := some 3,
          total_generation_kw := some 100 }).wind_kw := by decide

/-- C3, amended: normalization preserves the invariant rather than
establishing it — if the raw payload's total already equals solar + wind
with both non-negative (as on the simulated path, which computes the total
as the sum before normalization), the normalized reading satisfies
`total_generation_kw = solar_kw + wind_kw`; and the ingest endpoint's
derived-metrics step (`main.py` lines 195-197) establishes the invariant
unconditionally by overwriting the total with the processed solar + wind. -/
theorem C3_amended :
    (∀ (p : RawPayload) (s w t : ℚ), p.solar_kw = some s → p.wind_kw = some w →
      p.total_generation_kw = some t → t = s + w → 0 ≤ s → 0 ≤ w →
      (process_sensor_payload p).total_generation_kw =
        (process_sensor_payload p).solar_kw + (process_sensor_payload p).wind_kw) ∧
    (∀ r : ProcessedReading,
      (ingest_data_derived_total r).total_generation_kw =
        (ingest_data_derived_total r).solar_kw + (ingest_data_derived_total r).wind_kw) := by
  constructor
  · intro p s w t hs hw ht hsum hs0 hw0
    unfold process_sensor_payload
    simp only [hs, hw, ht, Option.getD_some]
    rw [max_eq_right hs0, max_eq_right hw0, hsum,
      max_eq_right (add_nonneg hs0 hw0)]
  · intro r
    rfl

/-- C3, witness for the amended theorem at concrete inputs: a payload with
solar 5, wind 3, total 8 normalizes to a reading satisfying the invariant,
and the derived-metrics step enforces it on an arbitrary concrete reading. -/
theorem C3_amended_witness :
    ((process_sensor_payload
        { solar_kw := some 5, wind_kw := some 3,
          total_generation_kw := some 8 }).total_generation_kw =
      (process_sensor_payload
        { solar_kw := some 5, wind_kw := some 3,
          total_generation_kw := some 8 }).solar_kw +
      (process_sensor_payload
        { solar_kw := some 5, wind_kw := some 3,
          total_generation_kw := some 8 }).wind_kw) ∧
    ((ingest_data_derived_total ⟨1, 2, 99, 4, 50, 0, 0, 0, 0, 0, 0⟩).total_generation_kw =
      (ingest_data_derived_total ⟨1, 2, 99, 4, 50, 0, 0, 0, 0, 0, 0⟩).solar_kw +
      (ingest_data_derived_total ⟨1, 2, 99, 4, 50, 0, 0, 0, 0, 0, 0⟩).wind_kw) :=
  ⟨C3_amended.1 _ 5 3 8 rfl rfl rfl (by norm_num) (by norm_num) (by norm_num),
    C3_amended.2 _⟩
/-- C5, counterexample: with surplus 60 kW (solar 60, load 0), SOC 75 %,
forecast 20 kWh, peak hour and an export ceiling of 50 kW, all of the
claim's conditions hold (positive surplus, forecast > 15, SOC > 70, peak),
yet the optimizer does not export the full surplus and does not return
`DELAYED_CHARGE_EXPORTING`: the curtailment check runs after the
delayed-charge branch and overwrites both (export 50, strategy
`CURTAILING_GEN_10.0KW`). -/
theorem C5_counterexample :
    0 < (60 : ℚ) + 0 - 0 ∧ (15 : ℚ) < 20 ∧ (70 : ℚ) < 75 ∧
    (optimize_power_flow 60 0 0 75 80 20 20 .AUTO 0 true 50).grid_export_kw ≠
      60 + 0 - 0 ∧
    (optimize_power_flow 60 0 0 75 80 20 20 .AUTO 0 true 50).strategy ≠
      .DELAYED_CHARGE_EXPORTING ∧
    optimize_power_flow 60 0 0 75 80 20 20 .AUTO 0 true 50 =
      { battery_power_kw := 0, grid_import_kw := 0, grid_export_kw := 50,
        strategy := .CURTAILING_GEN 10 } := by
  refine ⟨by norm_num, by norm_num, by norm_num, by decide, by decide, by decide⟩

/-- C5, amended: in AUTO mode with a positive surplus, forecast 3-h surplus
above 15 kWh, SOC above 70 % and the peak-hour flag set, PROVIDED the
(2-dp-rounded) surplus does not exceed the export ceiling, the optimizer
charges at 0 kW, exports the whole surplus (rounded to 2 decimals) and
returns `DELAYED_CHARGE_EXPORTING`; when the surplus exceeds the ceiling the
curtailment tag replaces the label and export is capped (see the
counterexample). -/
theorem C5_delayed_charge_exporting
    (solar wind load soc cap maxpw forecast ovr gmax : ℚ)
    (hs : 0 < solar + wind - load) (hf : 15 < forecast) (hsoc : 70 < soc)
    (hcap : round2 (solar + wind - load) ≤ gmax) :
    optimize_power_flow solar wind load soc cap maxpw forecast .AUTO ovr true gmax =
      { battery_power_kw := 0, grid_import_kw := 0,
        grid_export_kw := round2 (solar + wind - load),
        strategy := .DELAYED_CHARGE_EXPORTING } := by
  have hexc : forecast > 15 ∧ soc > 70 ∧ True := ⟨hf, hsoc, trivial⟩
  have hmax : max (0 : ℚ) 0 = 0 := max_self 0
  have hmaxs : max 0 (solar + wind - load) = solar + wind - load := max_eq_right hs.le
  simp only [optimize_power_flow, autoChargeKw]
  rw [if_pos hs, if_pos hexc, if_pos hexc]
  rw [hmax, round2_zero, sub_zero, hmaxs]
  rw [if_neg (not_lt.mpr hcap)]

/-- C5, witness for the amended theorem: surplus 30 kW (solar 30, load 0),
SOC 75 %, capacity 80 kWh, rated power 20 kW, forecast 20 kWh, peak hour,
ceiling 50 kW → battery 0 kW, export 30 kW, `DELAYED_CHARGE_EXPORTING`. -/
theorem C5_delayed_charge_exporting_witness :
    optimize_power_flow 30 0 0 75 80 20 20 .AUTO 0 true 50 =
      { battery_power_kw := 0, grid_import_kw := 0,
        grid_export_kw := round2 (30 + 0 - 0),
        strategy := .DELAYED_CHARGE_EXPORTING } :=
  C5_delayed_charge_exporting 30 0 0 75 80 20 20 0 50 (by norm_num)
    (by norm_num) (by norm_num) (by decide)

/-- C6: in AUTO mode with a positive surplus the returned export never
exceeds the configured ceiling, and whenever the pre-cap export (the
2-dp-rounded surplus remaining after the charge decision,
`autoPreCapExport`) exceeds the ceiling, the export is capped to the ceiling
and the strategy is the curtailment tag parameterized with the curtailed
amount, pre-cap export minus ceiling (rounded to 1 decimal in the tag). -/
theorem C6_export_ceiling_and_curtailment
    (solar wind load soc cap maxpw forecast ovr : ℚ) (peak : Bool) (gmax : ℚ)
    (hs : 0 < solar + wind - load) :
    (optimize_power_flow solar wind load soc cap maxpw forecast .AUTO ovr peak
        gmax).grid_export_kw ≤ gmax ∧
    (gmax < autoPreCapExport (solar + wind - load) soc cap maxpw forecast peak →
      (optimize_power_flow solar wind load soc cap maxpw forecast .AUTO ovr peak
          gmax).grid_export_kw = gmax ∧
      (optimize_power_flow solar wind load soc cap maxpw forecast .AUTO ovr peak
          gmax).strategy = .CURTAILING_GEN (round1
            (autoPreCapExport (solar + wind - load) soc cap maxpw forecast peak
              - gmax))) := by
  simp only [optimize_power_flow, autoPreCapExport]
  rw [if_pos hs]
  split_ifs with hcurt
  · exact ⟨le_refl _, fun _ => ⟨rfl, rfl⟩⟩
  all_goals exact ⟨le_of_not_lt hcurt, fun h => absurd h hcurt⟩

/-- C6, witness: solar 100, load 0, SOC 75 %, forecast 20 kWh, peak hour,
ceiling 50 kW: pre-cap export is 100 kW, so export is capped at 50 kW and
the strategy carries the 50 kW curtailed amount. -/
theorem C6_export_ceiling_and_curtailment_witness :
    0 < (100 : ℚ) + 0 - 0 ∧
    ((optimize_power_flow 100 0 0 75 80 20 20 .AUTO 0 true 50).grid_export_kw
        ≤ 50 ∧
      (50 < autoPreCapExport (100 + 0 - 0) 75 80 20 20 true →
        (optimize_power_flow 100 0 0 75 80 20 20 .AUTO 0 true
            50).grid_export_kw = 50 ∧
        (optimize_power_flow 100 0 0 75 80 20 20 .AUTO 0 true 50).strategy =
          .CURTAILING_GEN (round1
            (autoPreCapExport (100 + 0 - 0) 75 80 20 20 true - 50)))) :=
  ⟨by norm_num,
    C6_export_ceiling_and_curtailment 100 0 0 75 80 20 20 0 true 50 (by norm_num)⟩

/-- Helper: `round2 (max 0 (a − s))` and `round2 (max 0 (s − a))` cannot both
be positive — one of the two differences is non-positive, so its clamped,
rounded value is 0. -/
theorem round2_max_sub_mutual (a s : ℚ) :
    ¬(0 < round2 (max 0 (a - s)) ∧ 0 < round2 (max 0 (s - a))) := by
  rcases le_total a s with h | h
  · rintro ⟨h1, h2⟩
    rw [max_eq_left (sub_nonpos.mpr h), round2_zero] at h1
    exact lt_irrefl 0 h1
  · rintro ⟨h1, h2⟩
    rw [max_eq_left (sub_nonpos.mpr h), round2_zero] at h2
    exact lt_irrefl 0 h2

/-- Helper: `round2 (max 0 (−t))` and `round2 (max 0 t)` cannot both be
positive. -/
theorem round2_max_neg_mutual (t : ℚ) :
    ¬(0 < round2 (max 0 (-t)) ∧ 0 < round2 (max 0 t)) := by
  rcases le_total t 0 with h | h
  · rintro ⟨h1, h2⟩
    rw [max_eq_left h, round2_zero] at h2
    exact lt_irrefl 0 h2
  · rintro ⟨h1, h2⟩
    rw [max_eq_left (neg_nonpos.mpr h), round2_zero] at h1
    exact lt_irrefl 0 h1

/-- C9, counterexample: the normalization step does not enforce mutual
exclusion of the grid fields — a raw payload carrying import 5 kW and export
5 kW normalizes to a reading with both strictly positive. -/
theorem C9_counterexample :
    0 < (process_sensor_payload
        { grid_import_kw := some 5, grid_export_kw := some 5 }).grid_import_kw ∧
    0 < (process_sensor_payload
        { grid_import_kw := some 5, grid_export_kw := some 5 }).grid_export_kw := by
  decide

/-- C9, amended: every dispatch result of `optimize_power_flow` — any mode,
any inputs — never has `grid_import_kw` and `grid_export_kw` both strictly
positive; and the normalization step preserves that property (a payload with
at most one of the two positive normalizes to a reading with at most one
positive, and both system paths feed it such payloads), but does not
establish it for arbitrary raw payloads (see the counterexample). -/
theorem C9_import_export_mutually_exclusive :
    (∀ (solar wind load soc cap maxpw forecast : ℚ) (mode : Mode) (ovr : ℚ)
        (peak : Bool) (gmax : ℚ),
      ¬(0 < (optimize_power_flow solar wind load soc cap maxpw forecast mode
              ovr peak gmax).grid_import_kw ∧
        0 < (optimize_power_flow solar wind load soc cap maxpw forecast mode
              ovr peak gmax).grid_export_kw)) ∧
    (∀ p : RawPayload,
      ¬(0 < p.grid_import_kw.getD 0 ∧ 0 < p.grid_export_kw.getD 0) →
      ¬(0 < (process_sensor_payload p).grid_import_kw ∧
        0 < (process_sensor_payload p).grid_export_kw)) := by
  constructor
  · intro solar wind load soc cap maxpw forecast mode ovr peak gmax
    cases mode with
    | MANUAL_CHARGE =>
      simp only [optimize_power_flow]
      exact round2_max_sub_mutual _ _
    | MANUAL_DISCHARGE =>
      simp only [optimize_power_flow]
      exact round2_max_neg_mutual _
    | AUTO =>
      simp only [optimize_power_flow]
      split_ifs <;> rintro ⟨h1, h2⟩ <;>
        first
          | exact lt_irrefl 0 h1
          | exact lt_irrefl 0 h2
  · intro p hp
    unfold process_sensor_payload
    rintro ⟨h1, h2⟩
    exact hp ⟨(lt_max_iff.mp h1).resolve_left (lt_irrefl 0),
      (lt_max_iff.mp h2).resolve_left (lt_irrefl 0)⟩

/-- C9, witness for the amended theorem: one concrete dispatch result (AUTO,
surplus) and one concrete import-only payload. -/
theorem C9_import_export_mutually_exclusive_witness :
    (¬(0 < (optimize_power_flow 30 0 0 75 80 20 20 .AUTO 0 true
            50).grid_import_kw ∧
      0 < (optimize_power_flow 30 0 0 75 80 20 20 .AUTO 0 true
            50).grid_export_kw)) ∧
    (¬(0 < (process_sensor_payload
            { grid_import_kw := some 5 }).grid_import_kw ∧
      0 < (process_sensor_payload
            { grid_import_kw := some 5 }).grid_export_kw)) :=
  ⟨C9_import_export_mutually_exclusive.1 30 0 0 75 80 20 20 .AUTO 0 true 50,
    C9_import_export_mutually_exclusive.2 { grid_import_kw := some 5 }
      (by decide)⟩

/-- Helper: a flag produced by the per-field evaluation is tagged with that
field. -/
theorem evalAnomalyField_field (w : List SensorReading) (r : SensorReading)
    (f : AField) (fl : AnomalyFlag) (h : evalAnomalyField w r f = some fl) :
    fl.field = f := by
  simp only [evalAnomalyField] at h
  split_ifs at h
  simp only [Option.some.injEq] at h
  subst h
  rfl

/-- Helper: a field whose rolling sample variance is under the flatness
floor is always skipped. -/
theorem evalAnomalyField_flat (w : List SensorReading) (r : SensorReading)
    (f : AField)
    (h : sampleVariance (w.map fun x => fieldValue x f) < 1/100) :
    evalAnomalyField w r f = none := by
  simp only [evalAnomalyField]
  split_ifs <;> rfl

/-- C7: anomaly detection returns no flags when the window holds fewer than
30 readings (the window at the call site already contains the new reading),
and never returns a flag for a field whose rolling sample variance over the
buffered values is below the flatness floor (σ < 0.1, i.e. σ² < 1/100) — in
particular, a window of identical values produces no flag for that field. -/
theorem C7_cold_start_and_flatness_guard :
    (∀ (w : List SensorReading) (r : SensorReading), w.length < 30 →
      detect_anomalies w r = []) ∧
    (∀ (w : List SensorReading) (r : SensorReading) (f : AField),
      sampleVariance (w.map fun x => fieldValue x f) < 1/100 →
      (detect_anomalies w r).filter (fun fl => decide (fl.field = f)) = []) := by
  constructor
  · intro w r h
    unfold detect_anomalies
    rw [if_pos h]
  · intro w r f hvar
    unfold detect_anomalies
    split_ifs with h30
    · rfl
    · rw [List.filter_eq_nil_iff]
      intro fl hmem hdec
      rw [List.mem_filterMap] at hmem
      obtain ⟨g, hg, heval⟩ := hmem
      have hfg : fl.field = g := evalAnomalyField_field w r g fl heval
      have hf : fl.field = f := of_decide_eq_true hdec
      rw [hfg] at hf
      rw [hf] at heval
      rw [evalAnomalyField_flat w r f hvar] at heval
      exact Option.noConfusion heval

set_option maxRecDepth 4000 in
/-- C7, witness: the cold-start guard at an empty window, and the flatness
guard on a window of 40 identical zero-valued readings for the solar field
(night-time solar): zero solar flags for a later zero reading. -/
theorem C7_cold_start_and_flatness_guard_witness :
    detect_anomalies [] ⟨0, 0, 0, 0⟩ = [] ∧
    (detect_anomalies (List.replicate 40 ⟨0, 5, 30, 2⟩) ⟨0, 5, 30, 2⟩).filter
      (fun fl => decide (fl.field = AField.solar_kw)) = [] :=
  ⟨C7_cold_start_and_flatness_guard.1 [] ⟨0, 0, 0, 0⟩ (by decide),
    C7_cold_start_and_flatness_guard.2 (List.replicate 40 ⟨0, 5, 30, 2⟩)
      ⟨0, 5, 30, 2⟩ AField.solar_kw (by decide)⟩

/-- Helper: `pipeline_ingest` keeps the configured capacity. -/
theorem pipeline_ingest_cap (s : PipelineState) (r : TimedReading) :
    (pipeline_ingest s r).cap = s.cap := by
  simp only [pipeline_ingest]
  split_ifs <;> rfl

/-- Helper: `pipeline_ingest` appends the reading to the bounded window
regardless of the aggregation branch taken. -/
theorem pipeline_ingest_window (s : PipelineState) (r : TimedReading) :
    (pipeline_ingest s r).window = pushBounded s.cap s.window r := by
  simp only [pipeline_ingest]
  split_ifs <;> rfl

/-- Helper: over a whole trace the window evolves by `pushBounded` alone. -/
theorem pipeline_ingestAll_window (rs : List TimedReading) :
    ∀ s : PipelineState,
      (pipeline_ingestAll s rs).window = rs.foldl (pushBounded s.cap) s.window := by
  induction rs with
  | nil => intro s; rfl
  | cons r rs ih =>
    intro s
    show (pipeline_ingestAll (pipeline_ingest s r) rs).window = _
    rw [ih (pipeline_ingest s r), pipeline_ingest_cap, pipeline_ingest_window,
      List.foldl_cons]

/-- Helper: folding `pushBounded` from the empty list keeps exactly the last
`c` elements, in order (for a positive capacity `c`). -/
theorem foldl_pushBounded_eq_drop {α : Type} (c : ℕ) (hc : 1 ≤ c)
    (rs : List α) :
    rs.foldl (pushBounded c) [] = rs.drop (rs.length - c) := by
  induction rs using List.reverseRecOn with
  | nil => simp
  | append_singleton l a ih =>
    rw [List.foldl_append, List.foldl_cons, List.foldl_nil, ih]
    unfold pushBounded
    simp only [List.length_append, List.length_singleton]
    by_cases h : l.length < c
    · have h0 : l.length - c = 0 := by omega
      have h1 : l.length + 1 - c = 0 := by omega
      rw [h0, List.drop_zero, if_pos h, h1, List.drop_zero]
    · push_neg at h
      have hlen : (List.drop (l.length - c) l).length = c := by
        rw [List.length_drop]; omega
      rw [if_neg (by rw [hlen]; exact lt_irrefl c), List.drop_drop,
        List.drop_append_of_le_length (by omega : l.length + 1 - c ≤ l.length)]
      congr 2
      omega

/-- C8: for every ingest trace from a fresh pipeline with configured window
capacity `cap ≥ 1` (the source default is 720), the rolling window is
exactly the last `cap` readings of the trace in arrival order — so its size
never exceeds the capacity and eviction is strictly FIFO (whenever capacity
is exceeded, precisely the oldest readings are gone). -/
theorem C8_window_bounded_fifo (cap : ℕ) (hc : 1 ≤ cap)
    (rs : List TimedReading) :
    (pipeline_ingestAll (initPipeline cap) rs).window =
      rs.drop (rs.length - cap) ∧
    (pipeline_ingestAll (initPipeline cap) rs).window.length ≤ cap := by
  have h := pipeline_ingestAll_window rs (initPipeline cap)
  rw [show (initPipeline cap).cap = cap from rfl,
    show (initPipeline cap).window = ([] : List TimedReading) from rfl] at h
  rw [h, foldl_pushBounded_eq_drop cap hc rs]
  refine ⟨rfl, ?_⟩
  rw [List.length_drop]
  omega

/-- C8, witness: capacity 2, three readings — the window holds the last two
readings in order; the first (oldest) was evicted. -/
theorem C8_window_bounded_fifo_witness :
    (pipeline_ingestAll (initPipeline 2) [⟨0, 1⟩, ⟨1, 2⟩, ⟨2, 3⟩]).window =
      ([⟨0, 1⟩, ⟨1, 2⟩, ⟨2, 3⟩] : List TimedReading).drop
        (([⟨0, 1⟩, ⟨1, 2⟩, ⟨2, 3⟩] : List TimedReading).length - 2) ∧
    (pipeline_ingestAll (initPipeline 2) [⟨0, 1⟩, ⟨1, 2⟩, ⟨2, 3⟩]).window.length ≤ 2 :=
  C8_window_bounded_fifo 2 (by decide) [⟨0, 1⟩, ⟨1, 2⟩, ⟨2, 3⟩]

/-- C10: for every pipeline state with at least one buffered reading,
`recent(0)` returns the entire current window in chronological order — not
the empty list — because the Python slice `items[-0:]` is the whole list. -/
theorem C10_recent_zero_returns_all (s : PipelineState)
    (h : 1 ≤ s.window.length) :
    pipeline_recent 0 s = s.window ∧ pipeline_recent 0 s ≠ [] := by
  have h0 : pipeline_recent 0 s = s.window := by
    unfold pipeline_recent
    rw [if_pos rfl]
  refine ⟨h0, ?_⟩
  rw [h0]
  exact List.length_pos.mp h

/-- C10, witness at a one-reading window. -/
theorem C10_recent_zero_returns_all_witness :
    pipeline_recent 0
        { cap := 720, window := [⟨0, 1⟩], aggBuf := [], aggs := [],
          aggCutoff := none } =
      PipelineState.window
        { cap := 720, window := [⟨0, 1⟩], aggBuf := [], aggs := [],
          aggCutoff := none } ∧
    pipeline_recent 0
        { cap := 720, window := [⟨0, 1⟩], aggBuf := [], aggs := [],
          aggCutoff := none } ≠ [] :=
  C10_recent_zero_returns_all _ (by decide)

/-- C4, counterexample: ingest a reading at t = 0 min (value 10; the bin
cutoff becomes 5 min) and then one at t = 6 min (value 20, past the cutoff).
The flushed bin is stamped 5 and holds mean 15 — the late reading WAS
counted — whereas the arithmetic mean over exactly the readings whose
timestamps fall within the bin window [0, 5) is 10.  The claim's bin/window
correspondence fails at this input. -/
theorem C4_counterexample :
    (pipeline_ingestAll (initPipeline 720) [⟨0, 10⟩, ⟨6, 20⟩]).aggs =
      [{ ts := 5, val := 15 }] ∧
    binWindowMean [⟨0, 10⟩, ⟨6, 20⟩] 5 = 10 ∧ ((15 : ℚ) ≠ 10) :=
  ⟨by decide, by decide, by norm_num⟩

/-- C4, amended: each flushed bin's value is the (3-dp-rounded) arithmetic
mean over the readings accumulated in the aggregation buffer since the
previous flush — including the reading whose arrival triggered the flush,
even though its timestamp lies at or past the bin cutoff.  The bin is the
consecutive batch of ingested readings, not the set of readings whose
timestamps fall inside the bin's time window. -/
theorem C4_flushed_bin_mean_of_buffer (s : PipelineState) (r : TimedReading)
    (c : ℚ) (hc : s.aggCutoff = some c) (hts : c ≤ r.ts) :
    (pipeline_ingest s r).aggs.getLast? =
      some { ts := c,
             val := round3 (listMean ((s.aggBuf ++ [r]).map TimedReading.val)) } := by
  have hflush : flush_aggregate c (s.aggBuf ++ [r]) =
      some { ts := c,
             val := round3 (listMean ((s.aggBuf ++ [r]).map TimedReading.val)) } := by
    unfold flush_aggregate
    rw [if_neg (by simp : ¬((s.aggBuf ++ [r]).isEmpty = true))]
  unfold pipeline_ingest
  rw [hc]
  simp only [Option.getD_some]
  rw [if_pos hts]
  show (match flush_aggregate c (s.aggBuf ++ [r]) with
    | none => s.aggs
    | some b => pushBounded 288 s.aggs b).getLast? = _
  rw [hflush]
  show (pushBounded 288 s.aggs _).getLast? = _
  unfold pushBounded
  split_ifs <;> rw [List.getLast?_concat]

/-- C4, witness for the amended theorem: the state reached after ingesting
⟨0, 10⟩ from a fresh pipeline (buffer [⟨0, 10⟩], cutoff 5), ingesting
⟨6, 20⟩ flushes a bin stamped 5 whose value is the rounded mean of the two
buffered readings. -/
theorem C4_flushed_bin_mean_of_buffer_witness :
    (pipeline_ingest
        { cap := 720, window := [⟨0, 10⟩], aggBuf := [⟨0, 10⟩], aggs := [],
          aggCutoff := some 5 } ⟨6, 20⟩).aggs.getLast? =
      some { ts := 5,
             val := round3 (listMean ((([⟨0, 10⟩] : List TimedReading) ++
               ([⟨6, 20⟩] : List TimedReading)).map TimedReading.val)) } :=
  C4_flushed_bin_mean_of_buffer _ _ 5 rfl (by norm_num)

end

end GridZen
